import Mathlib

/-!
Verification of the DreamFocuser INDI serial-protocol driver
(src/dreamfocuser.cpp, src/dreamfocuser.h).

The wire frame, checksum, encoder (send_command), decoder (read_response),
the device-model operations (getPosition, getStatus, getTemperature,
setPosition, setSync) and the polling tick (TimerHit) are shallowly
embedded.  Bytes are naturals (device bytes are < 256); the C machine
integers int32_t / uint32_t / short int are modelled as Int / Nat with
explicit two's-complement conversions; float values (temperature,
humidity) are modelled as rationals.  Serial I/O is modelled by an
oracle argument: the frame delivered by the transport for an exchange,
or none when the transport fails (write error, timeout, short read).
-/

namespace DreamFocuser

/-- The 8-byte wire frame, struct DreamFocuserCommand of dreamfocuser.h.
Field M is the framing marker (the source initialises it to the letter M,
code 77) and n the constant zero byte; z is the checksum byte. -/
structure DreamFocuserCommand where
  M : Nat
  k : Nat
  a : Nat
  b : Nat
  c : Nat
  d : Nat
  n : Nat
  z : Nat
  deriving DecidableEq, Repr

/-- calculate_checksum: z = (M + k + a + b + c + d + n) & 0xff.  The C sum
is over bytes promoted to int, so it is the plain unsigned sum mod 256. -/
def calculate_checksum (c : DreamFocuserCommand) : Nat :=
  (c.M + c.k + c.a + c.b + c.c + c.d + c.n) % 256

/-- The frame as the 8 bytes written to the wire, in struct order. -/
def frameBytes (c : DreamFocuserCommand) : List Nat :=
  [c.M, c.k, c.a, c.b, c.c, c.d, c.n, c.z]

/-- Byte i of the uint32 l as seen through the unsigned char pointer
x = (unsigned char *)&l on the (little-endian) target: x[i]. -/
def byteOf (l i : Nat) : Nat := l / 2 ^ (8 * i) % 256

/-- Building a command frame: M = 77, n = 0, then z := calculate_checksum
of the frame (the checksum does not read z). -/
def mkCommand (k a b c d : Nat) : DreamFocuserCommand :=
  let c0 : DreamFocuserCommand := ⟨77, k, a, b, c, d, 0, 0⟩
  { c0 with z := calculate_checksum c0 }

/-- send_command's frame construction: the switch on the opcode k.
Opcode codes: M=77, Z=90, H=72, P=80, I=73, T=84, W=87, G=71, V=86, R=82.
For M/Z the four payload bytes are x[3] x[2] x[1] x[0] of the uint32 l;
for H,P,I,T,W,G,V they are zero; for R only d = x[0]; any other opcode is
rejected (none) and nothing is written. -/
def send_command (k : Nat) (l : Nat) : Option DreamFocuserCommand :=
  if k = 77 ∨ k = 90 then
    some (mkCommand k (byteOf l 3) (byteOf l 2) (byteOf l 1) (byteOf l 0))
  else if k = 72 ∨ k = 80 ∨ k = 73 ∨ k = 84 ∨ k = 87 ∨ k = 71 ∨ k = 86 then
    some (mkCommand k 0 0 0 0)
  else if k = 82 then
    some (mkCommand k 0 0 0 (byteOf l 0))
  else
    none

/-- read_response outside simulation, as a function of the number of bytes
the transport delivered and the delivered frame: fails when fewer than the
8 expected bytes arrived, when the recomputed checksum differs from the
received z, or when the opcode byte is a device sentinel: 33 (the
exclamation mark, unrecognized command) or 63 (the question mark, bad
checksum). -/
def read_response (nbytes : Nat) (r : DreamFocuserCommand) : Bool :=
  if nbytes ≠ 8 then false
  else if calculate_checksum r ≠ r.z then false
  else if r.k = 33 then false
  else if r.k = 63 then false
  else true

/-- Two's-complement reinterpretation of a uint32 value as int32. -/
def toSigned32 (u : Nat) : Int := if u < 2 ^ 31 then (u : Int) else (u : Int) - 2 ^ 32

/-- Two's-complement reinterpretation of a uint16 value as short int. -/
def toSigned16 (u : Nat) : Int := if u < 2 ^ 15 then (u : Int) else (u : Int) - 2 ^ 16

/-- Conversion of an int32 value to uint32 (C implicit conversion). -/
def toUInt32 (x : Int) : Nat := (x % 2 ^ 32).toNat

/-- The 32-bit payload recombination (a<<24)|(b<<16)|(c<<8)|d, as its
unsigned value.  On byte fields (< 256) the bitwise ors are sums. -/
def payloadU (r : DreamFocuserCommand) : Nat :=
  r.a * 2 ^ 24 + r.b * 2 ^ 16 + r.c * 2 ^ 8 + r.d

/-- The payload read as the int32 the C expression yields when assigned
to or compared with an int32_t. -/
def payloadS (r : DreamFocuserCommand) : Int := toSigned32 (payloadU r)

/-- int32 wrap-around of an Int (overflowing int32 arithmetic as the
target executes it: two's-complement wrap). -/
def wrap32 (x : Int) : Int := toSigned32 (toUInt32 x)

/-! ### Device model state and operations -/

/-- The INDI property/operation states used by the driver:
IPS_IDLE, IPS_OK, IPS_BUSY, IPS_ALERT. -/
inductive IPState where
  | Idle
  | Ok
  | Busy
  | Alert
  deriving DecidableEq, Repr

/-- The driver's cached/observable state: the private members of class
DreamFocuser together with the INDI property values the claims are about.
currentPosition is the int32_t cache; the float members currentTemperature
and currentHumidity are rationals; focusAbsPosS is FocusAbsPosNP.s,
statusSPs is StatusSP.s, statusMovingOn / statusSyncedOn are
StatusS[1].s / StatusS[0].s, environmentS is EnvironmentNP.s with
envTemperature / envHumidity the two EnvironmentN values, maxPosition is
MaxPositionN[0].value. -/
structure DFState where
  currentPosition : Int
  isMoving : Bool
  isAbsolute : Bool
  currentTemperature : Rat
  currentHumidity : Rat
  currentResponse : DreamFocuserCommand
  focusAbsPosS : IPState
  focusAbsPosValue : Int
  statusSPs : IPState
  statusMovingOn : Bool
  statusSyncedOn : Bool
  environmentS : IPState
  envTemperature : Rat
  envHumidity : Rat
  maxPosition : Int
  simulatedPosition : Int
  simulatedTemperature : Rat
  simulatedHumidity : Rat
  deriving DecidableEq, Repr

/-- dispatch_command outside simulation: send_command builds and writes
the request, read_response reads the reply into currentResponse and
checks it, and the opcode echo is compared.  deliver is the transport
oracle: the 8 delivered bytes, or none when the write or the read failed
(in which case currentResponse is untouched).  The third component lists
the request frames handed to the transport for writing. -/
def dispatch (s : DFState) (k l : Nat) (deliver : Option DreamFocuserCommand) :
    Bool × DFState × List DreamFocuserCommand :=
  match send_command k l with
  | none => (false, s, [])
  | some req =>
    match deliver with
    | none => (false, s, [req])
    | some r =>
      (read_response 8 r && (r.k == k), { s with currentResponse := r }, [req])

/-- getPosition outside simulation: dispatch P (80); on success set
currentPosition to (a<<24)|(b<<16)|(c<<8)|d of the response, read as the
int32_t it is assigned to. -/
def getPosition (s : DFState) (deliver : Option DreamFocuserCommand) :
    Bool × DFState :=
  let dr := dispatch s 80 0 deliver
  if dr.1 then
    (true, { dr.2.1 with currentPosition := payloadS dr.2.1.currentResponse })
  else (false, dr.2.1)

/-- getStatus outside simulation: dispatch I (73), on success set
isMoving := (d == 1), else fail; then dispatch W (87), on success set
isAbsolute := (d == 1), else fail. -/
def getStatus (s : DFState) (dI dW : Option DreamFocuserCommand) :
    Bool × DFState :=
  let drI := dispatch s 73 0 dI
  if drI.1 then
    let s1 := { drI.2.1 with isMoving := drI.2.1.currentResponse.d == 1 }
    let drW := dispatch s1 87 0 dW
    if drW.1 then
      (true, { drW.2.1 with isAbsolute := drW.2.1.currentResponse.d == 1 })
    else (false, drW.2.1)
  else (false, drI.2.1)

/-- getTemperature outside simulation: dispatch T (84); on success set
currentTemperature := ((short int)((c<<8)|d)) / 10.0 + 273.15 and
currentHumidity := ((short int)((a<<8)|b)) / 10.0 — note that BOTH
16-bit fields go through the signed short int cast in the source. -/
def getTemperature (s : DFState) (dT : Option DreamFocuserCommand) :
    Bool × DFState :=
  let dr := dispatch s 84 0 dT
  if dr.1 then
    (true, { dr.2.1 with
      currentTemperature :=
        (toSigned16 (dr.2.1.currentResponse.c * 256 + dr.2.1.currentResponse.d) : Rat)
          / 10 + 27315 / 100,
      currentHumidity :=
        (toSigned16 (dr.2.1.currentResponse.a * 256 + dr.2.1.currentResponse.b) : Rat)
          / 10 })
  else (false, dr.2.1)

/-- setPosition: dispatch M (77) with the int32 target (converted to the
uint32 send_command parameter); succeed only when the echoed payload,
read back as int32, equals the target. -/
def setPosition (s : DFState) (position : Int)
    (deliver : Option DreamFocuserCommand) :
    Bool × DFState × List DreamFocuserCommand :=
  let dr := dispatch s 77 (toUInt32 position) deliver
  if dr.1 && (payloadS dr.2.1.currentResponse == position) then
    (true, dr.2.1, dr.2.2)
  else (false, dr.2.1, dr.2.2)

/-- MoveAbsFocuser: the uint32_t ticks argument is passed to setPosition's
int32_t parameter (two's-complement reinterpretation); on success the
absolute-position property goes to Ok, else the call reports Alert.
There is no bounds test against maxPosition anywhere on this path. -/
def MoveAbsFocuser (s : DFState) (ticks : Nat)
    (deliver : Option DreamFocuserCommand) :
    IPState × DFState × List DreamFocuserCommand :=
  let sp := setPosition s (toSigned32 ticks) deliver
  if sp.1 then (IPState.Ok, { sp.2.1 with focusAbsPosS := IPState.Ok }, sp.2.2)
  else (IPState.Alert, sp.2.1, sp.2.2)

/-- MoveRelFocuser: finalTicks = currentPosition + (int32_t)ticks * (-1
for FOCUS_INWARD, +1 otherwise), in wrapping int32 arithmetic, then
delegate to setPosition.  The cached position is used as-is; no position
read happens first. -/
def MoveRelFocuser (s : DFState) (inward : Bool) (ticks : Nat)
    (deliver : Option DreamFocuserCommand) :
    IPState × DFState × List DreamFocuserCommand :=
  let finalTicks :=
    wrap32 (s.currentPosition + wrap32 (toSigned32 ticks * (if inward then -1 else 1)))
  let sp := setPosition s finalTicks deliver
  if sp.1 then (IPState.Ok, sp.2.1, sp.2.2)
  else (IPState.Alert, sp.2.1, sp.2.2)

/-! ### Simulation mode -/

/-- dispatch_command under simulation: send_command only sets the k, n
and z fields of currentResponse (z to the request checksum) and leaves
the payload bytes a..d as they were; read_response reports success
without reading anything, and the opcode-echo test trivially passes. -/
def dispatch_sim (s : DFState) (k l : Nat) : Bool × DFState :=
  match send_command k l with
  | none => (false, s)
  | some req =>
    (true, { s with currentResponse :=
      { s.currentResponse with k := k, n := 0, z := req.z } })

/-- setSync: dispatch Z (90) with the uint32 position; succeed only when
the echoed payload — converted to uint32 for the comparison against the
uint32_t parameter — equals the position.  Simulation-mode version. -/
def setSync_sim (s : DFState) (position : Nat) : Bool × DFState :=
  let dr := dispatch_sim s 90 position
  if dr.1 && (toUInt32 (payloadS dr.2.currentResponse) == position) then
    (true, dr.2)
  else (false, dr.2)

/-- getPosition under simulation: currentPosition := simulatedPosition,
always succeeding. -/
def getPosition_sim (s : DFState) : Bool × DFState :=
  (true, { s with currentPosition := s.simulatedPosition })

/-! ### The polling tick (TimerHit) -/

/-- The oracle for one tick: what the transport delivers for each of the
four exchanges TimerHit can perform (I, W, T, P), in that order. -/
structure TickOracle where
  respI : Option DreamFocuserCommand
  respW : Option DreamFocuserCommand
  respT : Option DreamFocuserCommand
  respP : Option DreamFocuserCommand
  deriving Repr

/-- The motion-flag update of the absolute-position status inside
TimerHit: Busy when moving; otherwise Ok unless it was Idle, which is
kept. -/
def absStatusAfterMotion (prev : IPState) (moving : Bool) : IPState :=
  if moving then IPState.Busy
  else if prev ≠ IPState.Idle then IPState.Ok
  else prev

/-- TimerHit outside simulation (the connected case).  Returns the new
state and whether a position read (getPosition) was performed.  Property
emission (IDSetNumber / IDSetSwitch) is I/O and is not modelled. -/
def TimerHit (s : DFState) (o : TickOracle) : DFState × Bool :=
  let oldPosition := s.currentPosition
  let gs := getStatus s o.respI o.respW
  if gs.1 then
    let s2 := { gs.2 with statusSPs := IPState.Ok }
    let s3 := { s2 with
      focusAbsPosS := absStatusAfterMotion s2.focusAbsPosS s2.isMoving,
      statusMovingOn := s2.isMoving }
    let s4 := { s3 with statusSyncedOn := s3.isAbsolute }
    let gt := getTemperature s4 o.respT
    let s6 :=
      if gt.1 then
        { gt.2 with
          environmentS :=
            if gt.2.envTemperature ≠ gt.2.currentTemperature ∨
               gt.2.envHumidity ≠ gt.2.currentHumidity
            then IPState.Busy else IPState.Ok,
          envTemperature := gt.2.currentTemperature,
          envHumidity := gt.2.currentHumidity }
      else { gt.2 with environmentS := IPState.Alert }
    if s6.focusAbsPosS ≠ IPState.Idle then
      let gp := getPosition s6 o.respP
      let s8 :=
        if gp.1 then
          if oldPosition ≠ gp.2.currentPosition then
            { gp.2 with
              focusAbsPosS := IPState.Busy,
              statusMovingOn := true,
              focusAbsPosValue := gp.2.currentPosition }
          else
            { gp.2 with statusMovingOn := false, focusAbsPosS := IPState.Ok }
        else { gp.2 with focusAbsPosS := IPState.Alert }
      (s8, true)
    else (s6, false)
  else ({ gs.2 with statusSPs := IPState.Alert }, false)

/-! ### Concrete sample data for witnesses and counterexamples -/

/-- A concrete well-formed prior response frame (a P echo with payload 0)
standing for the content of the currentResponse member. -/
def sampleResponse : DreamFocuserCommand := ⟨77, 80, 0, 0, 0, 0, 0, 157⟩

/-- A concrete plausible driver state: position cache 2000, not moving,
relative mode, properties Ok, max absolute position 300000 (the
MaxPositionN default), simulated position 2000 (the initProperties
default). -/
def sampleState : DFState where
  currentPosition := 2000
  isMoving := false
  isAbsolute := false
  currentTemperature := 0
  currentHumidity := 0
  currentResponse := sampleResponse
  focusAbsPosS := IPState.Ok
  focusAbsPosValue := 2000
  statusSPs := IPState.Ok
  statusMovingOn := false
  statusSyncedOn := false
  environmentS := IPState.Ok
  envTemperature := 0
  envHumidity := 0
  maxPosition := 300000
  simulatedPosition := 2000
  simulatedTemperature := 20
  simulatedHumidity := 1

/-- A valid I response reporting motion (d = 1). -/
def frameI1 : DreamFocuserCommand := ⟨77, 73, 0, 0, 0, 1, 0, 151⟩

/-- A valid W response reporting absolute mode (d = 1). -/
def frameW1 : DreamFocuserCommand := ⟨77, 87, 0, 0, 0, 1, 0, 165⟩

/-- A valid T response with zero raw humidity and temperature. -/
def frameT0 : DreamFocuserCommand := ⟨77, 84, 0, 0, 0, 0, 0, 161⟩

/-- A valid T response with raw humidity field 0xFFFF and zero raw
temperature: the humidity word has its sign bit set. -/
def frameTneg : DreamFocuserCommand := ⟨77, 84, 255, 255, 0, 0, 0, 159⟩

/-- A valid P response with payload 100. -/
def frameP100 : DreamFocuserCommand := ⟨77, 80, 0, 0, 0, 100, 0, 1⟩

/-- A tick oracle where all four exchanges deliver the valid frames above:
moving, absolute, zero environment, position 100. -/
def sampleOracle : TickOracle :=
  ⟨some frameI1, some frameW1, some frameT0, some frameP100⟩

/-! ### Claims C1, C2, C3: the frame codec -/

/-- Helper: recombining the four little-endian-extracted bytes big-endian
gives back the uint32. -/
theorem byteOf_recombine (l : Nat) (h : l < 2 ^ 32) :
    byteOf l 3 * 2 ^ 24 + byteOf l 2 * 2 ^ 16 + byteOf l 1 * 2 ^ 8 + byteOf l 0 = l := by
  simp only [byteOf]
  norm_num
  omega

/-- C1: for every opcode in {M,H,P,I,T,R,W,Z,V,G} and every payload,
send_command produces a frame whose byte 0 is 77 (the letter M), whose
byte 6 is 0, and whose byte 7 is the low 8 bits of the unsigned sum of
bytes 0 through 6. -/
theorem send_command_wellformed (k l : Nat)
    (hk : k = 77 ∨ k = 72 ∨ k = 80 ∨ k = 73 ∨ k = 84 ∨ k = 82 ∨ k = 87 ∨
          k = 90 ∨ k = 86 ∨ k = 71) :
    ∃ c, send_command k l = some c ∧
      (frameBytes c)[0]! = 77 ∧ (frameBytes c)[6]! = 0 ∧
      (frameBytes c)[7]! = ((frameBytes c).take 7).sum % 256 := by
  rcases hk with h | h | h | h | h | h | h | h | h | h <;>
    subst h <;>
    exact ⟨_, rfl, by simp [frameBytes, mkCommand, calculate_checksum] <;> ring_nf⟩

/-- C1 witness: the stop opcode H (72) with payload 0 yields the frame
77 72 0 0 0 0 0 149 with the stated shape. -/
theorem send_command_wellformed_witness :
    (72 = 77 ∨ 72 = 72 ∨ 72 = 80 ∨ 72 = 73 ∨ 72 = 84 ∨ 72 = 82 ∨ 72 = 87 ∨
      72 = 90 ∨ 72 = 86 ∨ 72 = 71) ∧
    ∃ c, send_command 72 0 = some c ∧
      (frameBytes c)[0]! = 77 ∧ (frameBytes c)[6]! = 0 ∧
      (frameBytes c)[7]! = ((frameBytes c).take 7).sum % 256 :=
  ⟨by decide, send_command_wellformed 72 0 (by decide)⟩

/-- C2: for opcodes M (77) and Z (90) and every 32-bit payload l, the
encoded payload bytes recombine big-endian to l:
(a<<24)|(b<<16)|(c<<8)|d = l. -/
theorem send_command_payload_bigendian (k l : Nat)
    (hk : k = 77 ∨ k = 90) (hl : l < 2 ^ 32) :
    ∃ c, send_command k l = some c ∧
      c.a * 2 ^ 24 + c.b * 2 ^ 16 + c.c * 2 ^ 8 + c.d = l := by
  rcases hk with h | h <;> subst h <;>
    exact ⟨_, rfl, byteOf_recombine l hl⟩

/-- C2 witness: opcode M with payload 305419896 (hex 12345678) encodes
bytes 18 52 86 120 which recombine to the payload. -/
theorem send_command_payload_bigendian_witness :
    ((77 : Nat) = 77 ∨ (77 : Nat) = 90) ∧ 305419896 < 2 ^ 32 ∧
    ∃ c, send_command 77 305419896 = some c ∧
      c.a * 2 ^ 24 + c.b * 2 ^ 16 + c.c * 2 ^ 8 + c.d = 305419896 :=
  ⟨by decide, by decide,
    send_command_payload_bigendian 77 305419896 (by decide) (by decide)⟩

/-- C3: response decoding fails exactly when fewer than 8 bytes were
delivered, or the recomputed checksum differs from the received z byte,
or the opcode byte is a sentinel (33 = unrecognized command,
63 = bad checksum); every other complete frame is accepted. -/
theorem read_response_fail_iff (nbytes : Nat) (r : DreamFocuserCommand)
    (h : nbytes ≤ 8) :
    read_response nbytes r = false ↔
      nbytes < 8 ∨ calculate_checksum r ≠ r.z ∨ r.k = 33 ∨ r.k = 63 := by
  simp only [read_response]
  split_ifs with h1 h2 h3 h4 <;> simp_all <;> omega

/-- C3 witness: a complete, checksum-correct P response (payload 128000)
decodes successfully; the failure disjunction is false for it. -/
theorem read_response_fail_iff_witness :
    (8 : Nat) ≤ 8 ∧
    (read_response 8 ⟨77, 80, 0, 1, 244, 0, 0, 146⟩ = false ↔
      8 < 8 ∨ calculate_checksum ⟨77, 80, 0, 1, 244, 0, 0, 146⟩ ≠ 146 ∨
      (80 : Nat) = 33 ∨ (80 : Nat) = 63) :=
  ⟨by decide, read_response_fail_iff 8 ⟨77, 80, 0, 1, 244, 0, 0, 146⟩ (by decide)⟩

/-! ### Claims C4 and C8: the polling tick and cache atomicity -/

/-- dispatch touches no state field other than currentResponse. -/
theorem dispatch_fields (s : DFState) (k l : Nat)
    (d : Option DreamFocuserCommand) :
    ((dispatch s k l d).2.1).currentPosition = s.currentPosition ∧
    ((dispatch s k l d).2.1).focusAbsPosS = s.focusAbsPosS ∧
    ((dispatch s k l d).2.1).isMoving = s.isMoving ∧
    ((dispatch s k l d).2.1).isAbsolute = s.isAbsolute ∧
    ((dispatch s k l d).2.1).currentTemperature = s.currentTemperature ∧
    ((dispatch s k l d).2.1).currentHumidity = s.currentHumidity ∧
    ((dispatch s k l d).2.1).envTemperature = s.envTemperature ∧
    ((dispatch s k l d).2.1).envHumidity = s.envHumidity := by
  unfold dispatch
  cases send_command k l <;> cases d <;> simp

/-- getPosition in full: it fails leaving the position cache alone unless
a frame arrived, passed read_response and echoed the P opcode, in which
case the cache becomes the response payload as int32. -/
theorem getPosition_spec (s : DFState) (d : Option DreamFocuserCommand) :
    getPosition s d =
      match d with
      | none => (false, s)
      | some r =>
        if read_response 8 r && (r.k == 80) then
          (true, { s with currentResponse := r, currentPosition := payloadS r })
        else (false, { s with currentResponse := r }) := by
  unfold getPosition dispatch
  have hsc : send_command 80 0 = some (mkCommand 80 0 0 0 0) := by
    simp [send_command]
  rw [hsc]
  cases d <;> dsimp only <;> split_ifs <;> first | rfl | simp_all

/-- getStatus in full: the I exchange is checked first (on failure the
state keeps only the delivered response, if any); on success isMoving is
updated at once, and only then is the W exchange tried, updating
isAbsolute on success. -/
theorem getStatus_spec (s : DFState) (dI dW : Option DreamFocuserCommand) :
    getStatus s dI dW =
      match dI with
      | none => (false, s)
      | some rI =>
        if read_response 8 rI && (rI.k == 73) then
          match dW with
          | none => (false, { s with currentResponse := rI, isMoving := rI.d == 1 })
          | some rW =>
            if read_response 8 rW && (rW.k == 87) then
              (true, { s with
                currentResponse := rW,
                isMoving := rI.d == 1,
                isAbsolute := rW.d == 1 })
            else (false, { s with currentResponse := rW, isMoving := rI.d == 1 })
        else (false, { s with currentResponse := rI }) := by
  unfold getStatus dispatch
  have hscI : send_command 73 0 = some (mkCommand 73 0 0 0 0) := by
    simp [send_command]
  have hscW : send_command 87 0 = some (mkCommand 87 0 0 0 0) := by
    simp [send_command]
  rw [hscI, hscW]
  cases dI <;> cases dW <;> dsimp only <;> split_ifs <;> first | rfl | simp_all

/-- getTemperature in full: on a checked T response both 16-bit fields
are decoded through the signed short int cast and scaled by 1/10, the
temperature getting the additional 273.15 Celsius-to-Kelvin offset. -/
theorem getTemperature_spec (s : DFState) (dT : Option DreamFocuserCommand) :
    getTemperature s dT =
      match dT with
      | none => (false, s)
      | some r =>
        if read_response 8 r && (r.k == 84) then
          (true, { s with
            currentResponse := r,
            currentTemperature := (toSigned16 (r.c * 256 + r.d) : Rat) / 10 + 27315 / 100,
            currentHumidity := (toSigned16 (r.a * 256 + r.b) : Rat) / 10 })
        else (false, { s with currentResponse := r }) := by
  unfold getTemperature dispatch
  have hsc : send_command 84 0 = some (mkCommand 84 0 0 0 0) := by
    simp [send_command]
  rw [hsc]
  cases dT <;> dsimp only <;> split_ifs <;> first | rfl | simp_all

/-- getStatus never changes the cached position. -/
theorem getStatus_currentPosition (s : DFState)
    (dI dW : Option DreamFocuserCommand) :
    ((getStatus s dI dW).2).currentPosition = s.currentPosition := by
  rw [getStatus_spec]
  cases dI <;> cases dW <;> dsimp only <;> split_ifs <;> first | rfl | simp_all

/-- getStatus never changes the absolute-position property status. -/
theorem getStatus_focusAbsPosS (s : DFState)
    (dI dW : Option DreamFocuserCommand) :
    ((getStatus s dI dW).2).focusAbsPosS = s.focusAbsPosS := by
  rw [getStatus_spec]
  cases dI <;> cases dW <;> dsimp only <;> split_ifs <;> first | rfl | simp_all

/-- getTemperature never changes the cached position. -/
theorem getTemperature_currentPosition (s : DFState)
    (dT : Option DreamFocuserCommand) :
    ((getTemperature s dT).2).currentPosition = s.currentPosition := by
  rw [getTemperature_spec]
  cases dT <;> dsimp only <;> split_ifs <;> first | rfl | simp_all

/-- getTemperature never changes the absolute-position property status. -/
theorem getTemperature_focusAbsPosS (s : DFState)
    (dT : Option DreamFocuserCommand) :
    ((getTemperature s dT).2).focusAbsPosS = s.focusAbsPosS := by
  rw [getTemperature_spec]
  cases dT <;> dsimp only <;> split_ifs <;> first | rfl | simp_all

/-- C4: in a tick whose status pair read succeeded and whose
absolute-position status (after the motion update) is not Idle, a
position read is performed, and the final absolute-position status is
Busy when the successfully read position differs from the position
cached at the start of the tick, Ok when it is unchanged, and Alert when
the position read fails. -/
theorem tick_position_poll (s : DFState) (o : TickOracle)
    (hS : (getStatus s o.respI o.respW).1 = true)
    (hMid : absStatusAfterMotion s.focusAbsPosS
        ((getStatus s o.respI o.respW).2).isMoving ≠ IPState.Idle) :
    (TimerHit s o).2 = true ∧
    (TimerHit s o).1.focusAbsPosS =
      (match o.respP with
       | none => IPState.Alert
       | some r =>
         if read_response 8 r && (r.k == 80) then
           (if payloadS r ≠ s.currentPosition then IPState.Busy else IPState.Ok)
         else IPState.Alert) := by
  obtain ⟨rI, rW, rT, rP⟩ := o
  have hpos := getStatus_currentPosition s rI rW
  have habs := getStatus_focusAbsPosS s rI rW
  rcases hgs : getStatus s rI rW with ⟨okS, sA⟩
  rw [hgs] at hS hpos habs hMid
  dsimp only at hS hpos habs hMid
  subst hS
  simp only [TimerHit, hgs, if_true]
  have hposT := getTemperature_currentPosition
    { sA with
      statusSPs := IPState.Ok,
      focusAbsPosS := absStatusAfterMotion sA.focusAbsPosS sA.isMoving,
      statusMovingOn := sA.isMoving,
      statusSyncedOn := sA.isAbsolute } rT
  have habsT := getTemperature_focusAbsPosS
    { sA with
      statusSPs := IPState.Ok,
      focusAbsPosS := absStatusAfterMotion sA.focusAbsPosS sA.isMoving,
      statusMovingOn := sA.isMoving,
      statusSyncedOn := sA.isAbsolute } rT
  rcases hgt : getTemperature
    { sA with
      statusSPs := IPState.Ok,
      focusAbsPosS := absStatusAfterMotion sA.focusAbsPosS sA.isMoving,
      statusMovingOn := sA.isMoving,
      statusSyncedOn := sA.isAbsolute } rT with ⟨okT, sT⟩
  rw [hgt] at hposT habsT
  dsimp only at hposT habsT
  rw [habs] at habsT
  dsimp only
  have hfix : (if okT = true then
      { sT with
        environmentS :=
          if sT.envTemperature ≠ sT.currentTemperature ∨
             sT.envHumidity ≠ sT.currentHumidity
          then IPState.Busy else IPState.Ok,
        envTemperature := sT.currentTemperature,
        envHumidity := sT.currentHumidity }
    else { sT with environmentS := IPState.Alert }).focusAbsPosS =
      absStatusAfterMotion s.focusAbsPosS sA.isMoving := by
    cases okT <;> simp [habsT]
  have hfixPos : (if okT = true then
      { sT with
        environmentS :=
          if sT.envTemperature ≠ sT.currentTemperature ∨
             sT.envHumidity ≠ sT.currentHumidity
          then IPState.Busy else IPState.Ok,
        envTemperature := sT.currentTemperature,
        envHumidity := sT.currentHumidity }
    else { sT with environmentS := IPState.Alert }).currentPosition =
      s.currentPosition := by
    cases okT <;> simp [hposT, hpos]
  rw [getPosition_spec]
  rcases rP with _ | r
  · simp [hfix, hMid]
  · dsimp only
    by_cases hok : (read_response 8 r && (r.k == 80)) = true
    · simp only [hok, if_true]
      by_cases hne : payloadS r = s.currentPosition
      · simp [hfix, hfixPos, hMid, hne]
      · have hne2 : ¬s.currentPosition = payloadS r := fun h => hne h.symm
        simp [hfix, hfixPos, hMid, hne, hne2]
    · simp [hfix, hMid, hok]

/-- C4 witness: a tick from sampleState with valid I (moving), W, T and P
(payload 100) responses performs the position read and ends Busy, the
read position 100 differing from the cached 2000. -/
theorem tick_position_poll_witness :
    (getStatus sampleState sampleOracle.respI sampleOracle.respW).1 = true ∧
    absStatusAfterMotion sampleState.focusAbsPosS
      ((getStatus sampleState sampleOracle.respI sampleOracle.respW).2).isMoving ≠
        IPState.Idle ∧
    ((TimerHit sampleState sampleOracle).2 = true ∧
     (TimerHit sampleState sampleOracle).1.focusAbsPosS =
       (match sampleOracle.respP with
        | none => IPState.Alert
        | some r =>
          if read_response 8 r && (r.k == 80) then
            (if payloadS r ≠ sampleState.currentPosition then IPState.Busy
             else IPState.Ok)
          else IPState.Alert)) :=
  ⟨by decide, by decide,
    tick_position_poll sampleState sampleOracle (by decide) (by decide)⟩

/-! ### Claim C8: atomicity of the read operations -/

/-- C8 counterexample: a status read in which the I exchange succeeds
(reporting motion) and the W exchange then times out returns failure,
yet it has already changed the cached isMoving flag — so a failing
read operation does NOT always leave every cached field unchanged. -/
theorem getStatus_partial_update_cex :
    (getStatus sampleState (some frameI1) none).1 = false ∧
    (getStatus sampleState (some frameI1) none).2.isMoving ≠ sampleState.isMoving := by
  decide

/-- C8 amended: getPosition and getTemperature are atomic — on failure
the five cached fields are unchanged — and a failing getStatus leaves
position, isAbsolute, temperature and humidity unchanged, but may have
updated isMoving already (when the I exchange succeeded and the W
exchange failed). -/
theorem read_ops_cache_atomicity :
    (∀ (s : DFState) (d : Option DreamFocuserCommand),
      (getPosition s d).1 = false →
        (getPosition s d).2.currentPosition = s.currentPosition ∧
        (getPosition s d).2.isMoving = s.isMoving ∧
        (getPosition s d).2.isAbsolute = s.isAbsolute ∧
        (getPosition s d).2.currentTemperature = s.currentTemperature ∧
        (getPosition s d).2.currentHumidity = s.currentHumidity) ∧
    (∀ (s : DFState) (d : Option DreamFocuserCommand),
      (getTemperature s d).1 = false →
        (getTemperature s d).2.currentPosition = s.currentPosition ∧
        (getTemperature s d).2.isMoving = s.isMoving ∧
        (getTemperature s d).2.isAbsolute = s.isAbsolute ∧
        (getTemperature s d).2.currentTemperature = s.currentTemperature ∧
        (getTemperature s d).2.currentHumidity = s.currentHumidity) ∧
    (∀ (s : DFState) (dI dW : Option DreamFocuserCommand),
      (getStatus s dI dW).1 = false →
        (getStatus s dI dW).2.currentPosition = s.currentPosition ∧
        (getStatus s dI dW).2.isAbsolute = s.isAbsolute ∧
        (getStatus s dI dW).2.currentTemperature = s.currentTemperature ∧
        (getStatus s dI dW).2.currentHumidity = s.currentHumidity) := by
  refine ⟨?_, ?_, ?_⟩
  · intro s d h
    rw [getPosition_spec] at h ⊢
    cases d
    · simp
    · dsimp only at h ⊢
      split_ifs at h ⊢ <;> simp_all
  · intro s d h
    rw [getTemperature_spec] at h ⊢
    cases d
    · simp
    · dsimp only at h ⊢
      split_ifs at h ⊢ <;> simp_all
  · intro s dI dW h
    rw [getStatus_spec] at h ⊢
    cases dI <;> cases dW
    · simp
    · simp
    · dsimp only at h ⊢
      split_ifs at h ⊢ <;> simp_all
    · dsimp only at h ⊢
      split_ifs at h ⊢ <;> simp_all

/-- C8 witness: a position read whose transport timed out fails and
leaves every cached field of sampleState unchanged. -/
theorem read_ops_cache_atomicity_witness :
    (getPosition sampleState none).1 = false ∧
    ((getPosition sampleState none).2.currentPosition = sampleState.currentPosition ∧
     (getPosition sampleState none).2.isMoving = sampleState.isMoving ∧
     (getPosition sampleState none).2.isAbsolute = sampleState.isAbsolute ∧
     (getPosition sampleState none).2.currentTemperature = sampleState.currentTemperature ∧
     (getPosition sampleState none).2.currentHumidity = sampleState.currentHumidity) :=
  ⟨by decide, read_ops_cache_atomicity.1 sampleState none (by decide)⟩

/-! ### Claim C6: environment decoding -/

/-- C6 counterexample: a valid T response with raw humidity word 0xFFFF
decodes — through the source's (short int) cast — to humidity -0.1, not
to the unsigned reading 6553.5: humidity is NOT treated as unsigned. -/
theorem humidity_unsigned_decode_cex :
    (getTemperature sampleState (some frameTneg)).1 = true ∧
    (getTemperature sampleState (some frameTneg)).2.currentHumidity ≠ (65535 : Rat) / 10 ∧
    (getTemperature sampleState (some frameTneg)).2.currentHumidity = (-1 : Rat) / 10 := by
  have hc : (read_response 8 frameTneg && (frameTneg.k == 84)) = true := by decide
  refine ⟨?_, ?_, ?_⟩ <;>
    rw [getTemperature_spec] <;>
    simp only [hc, if_true] <;>
    norm_num [frameTneg, toSigned16]

/-- C6 amended: on every successful T exchange the cached temperature is
the SIGNED 16-bit value (c<<8)|d divided by 10 plus 273.15, and the
cached humidity is the likewise SIGNED 16-bit value (a<<8)|b divided by
10 (the source casts both fields through short int). -/
theorem getTemperature_signed_decode (s : DFState) (r : DreamFocuserCommand)
    (h : (getTemperature s (some r)).1 = true) :
    (getTemperature s (some r)).2.currentTemperature =
      (toSigned16 (r.c * 256 + r.d) : Rat) / 10 + 27315 / 100 ∧
    (getTemperature s (some r)).2.currentHumidity =
      (toSigned16 (r.a * 256 + r.b) : Rat) / 10 := by
  rw [getTemperature_spec] at h ⊢
  dsimp only at h ⊢
  split_ifs at h ⊢ <;> simp_all

/-- C6 witness: the frame with raw humidity 0xFFFF and raw temperature 0
decodes to temperature 273.15 and humidity -0.1. -/
theorem getTemperature_signed_decode_witness :
    (getTemperature sampleState (some frameTneg)).1 = true ∧
    ((getTemperature sampleState (some frameTneg)).2.currentTemperature =
       (toSigned16 (0 * 256 + 0) : Rat) / 10 + 27315 / 100 ∧
     (getTemperature sampleState (some frameTneg)).2.currentHumidity =
       (toSigned16 (255 * 256 + 255) : Rat) / 10) :=
  ⟨by decide, getTemperature_signed_decode sampleState frameTneg (by decide)⟩

/-! ### Claims C5, C7, C10: the move entry points -/

/-- setPosition always hands exactly one frame to the transport: the M
request encoding its target. -/
theorem setPosition_writes (s : DFState) (p : Int)
    (d : Option DreamFocuserCommand) :
    (setPosition s p d).2.2 =
      [mkCommand 77 (byteOf (toUInt32 p) 3) (byteOf (toUInt32 p) 2)
        (byteOf (toUInt32 p) 1) (byteOf (toUInt32 p) 0)] := by
  unfold setPosition dispatch
  have hsc : send_command 77 (toUInt32 p) =
      some (mkCommand 77 (byteOf (toUInt32 p) 3) (byteOf (toUInt32 p) 2)
        (byteOf (toUInt32 p) 1) (byteOf (toUInt32 p) 0)) := by
    simp [send_command]
  rw [hsc]
  cases d <;> dsimp only <;> split_ifs <;> rfl

/-- toUInt32 always lands under 2^32. -/
theorem toUInt32_lt (x : Int) : toUInt32 x < 2 ^ 32 := by
  unfold toUInt32
  omega

/-- Reading the int32 wrap of x back as uint32 is x mod 2^32. -/
theorem toUInt32_wrap32_cong (x : Int) : (toUInt32 (wrap32 x) : Int) = x % 2 ^ 32 := by
  unfold wrap32 toUInt32 toSigned32
  split_ifs <;> omega

/-- Adding an int32-wrapped term is congruent to adding the term, mod
2^32. -/
theorem wrap32_addmod (p y : Int) : (p + wrap32 y) % 2 ^ 32 = (p + y) % 2 ^ 32 := by
  unfold wrap32 toUInt32 toSigned32
  split_ifs <;> omega

/-- Round trip: the uint32 view of the int32 reinterpretation of a
uint32 value is that value. -/
theorem toUInt32_toSigned32 (t : Nat) (ht : t < 2 ^ 32) :
    toUInt32 (toSigned32 t) = t := by
  unfold toUInt32 toSigned32
  split_ifs <;> omega

/-- C5: a relative move writes exactly one frame, an M command, whose
32-bit payload is the cached position at the time of the call plus the
tick count (negated for the inward direction), as a uint32 (i.e. modulo
2^32); it delegates to setPosition and performs no position read. -/
theorem moveRel_single_M_payload (s : DFState) (inward : Bool) (ticks : Nat)
    (deliver : Option DreamFocuserCommand)
    (hlo : -(2 ^ 31) ≤ s.currentPosition) (hhi : s.currentPosition < 2 ^ 31)
    (ht : ticks < 2 ^ 32) :
    ∃ f, (MoveRelFocuser s inward ticks deliver).2.2 = [f] ∧ f.k = 77 ∧
      (payloadU f : Int) =
        (s.currentPosition +
          (if inward then -(ticks : Int) else (ticks : Int))) % 2 ^ 32 := by
  have hw : (MoveRelFocuser s inward ticks deliver).2.2 =
      (setPosition s
        (wrap32 (s.currentPosition +
          wrap32 (toSigned32 ticks * (if inward then -1 else 1)))) deliver).2.2 := by
    unfold MoveRelFocuser
    dsimp only
    split <;> split <;> rfl
  rw [hw, setPosition_writes]
  refine ⟨_, rfl, rfl, ?_⟩
  have hrec := byteOf_recombine
    (toUInt32 (wrap32 (s.currentPosition +
      wrap32 (toSigned32 ticks * (if inward then -1 else 1)))))
    (toUInt32_lt _)
  have hpay : payloadU (mkCommand 77
      (byteOf (toUInt32 (wrap32 (s.currentPosition +
        wrap32 (toSigned32 ticks * (if inward then -1 else 1))))) 3)
      (byteOf (toUInt32 (wrap32 (s.currentPosition +
        wrap32 (toSigned32 ticks * (if inward then -1 else 1))))) 2)
      (byteOf (toUInt32 (wrap32 (s.currentPosition +
        wrap32 (toSigned32 ticks * (if inward then -1 else 1))))) 1)
      (byteOf (toUInt32 (wrap32 (s.currentPosition +
        wrap32 (toSigned32 ticks * (if inward then -1 else 1))))) 0)) =
      toUInt32 (wrap32 (s.currentPosition +
        wrap32 (toSigned32 ticks * (if inward then -1 else 1)))) := hrec
  rw [hpay, toUInt32_wrap32_cong, wrap32_addmod]
  cases inward <;> unfold toSigned32 <;> split_ifs <;> simp <;> omega

/-- C5 witness: an inward relative move of 100 ticks from cached
position 2000 writes the single M frame with payload 1900. -/
theorem moveRel_single_M_payload_witness :
    -(2 ^ 31) ≤ sampleState.currentPosition ∧
    sampleState.currentPosition < 2 ^ 31 ∧ (100 : Nat) < 2 ^ 32 ∧
    ∃ f, (MoveRelFocuser sampleState true 100 none).2.2 = [f] ∧ f.k = 77 ∧
      (payloadU f : Int) =
        (sampleState.currentPosition +
          (if true then -((100 : Nat) : Int) else ((100 : Nat) : Int))) % 2 ^ 32 :=
  ⟨by decide, by decide, by decide,
    moveRel_single_M_payload sampleState true 100 none
      (by decide) (by decide) (by decide)⟩

/-- C7 counterexample: with the default maximum absolute position 300000
and the out-of-bounds target 301000, MoveAbsFocuser still writes the M
frame 77 77 0 4 151 200 0 253 to the transport — the request is NOT
rejected before dispatch. -/
theorem moveAbs_no_bounds_check_cex :
    sampleState.maxPosition = 300000 ∧
    (300000 : Int) < |toSigned32 301000| ∧
    (MoveAbsFocuser sampleState 301000 none).2.2 =
      [⟨77, 77, 0, 4, 151, 200, 0, 253⟩] := by
  decide

/-- C7 amended: the absolute-move operation performs no bounds check:
even for a target whose magnitude exceeds the configured maximum
absolute position, it writes exactly one M command for the target (the
[-max, max] bounds exist only as advisory property limits handled by
the framework). -/
theorem moveAbs_dispatches_out_of_bounds (s : DFState) (t : Nat)
    (d : Option DreamFocuserCommand) (ht : t < 2 ^ 32)
    (hb : s.maxPosition < |toSigned32 t|) :
    ∃ f, (MoveAbsFocuser s t d).2.2 = [f] ∧ f.k = 77 := by
  have hw : (MoveAbsFocuser s t d).2.2 = (setPosition s (toSigned32 t) d).2.2 := by
    unfold MoveAbsFocuser
    dsimp only
    split <;> rfl
  rw [hw, setPosition_writes]
  exact ⟨_, rfl, rfl⟩

/-- C7 witness for the amended claim: target 301000 against max 300000
still produces an M frame. -/
theorem moveAbs_dispatches_out_of_bounds_witness :
    (301000 : Nat) < 2 ^ 32 ∧ sampleState.maxPosition < |toSigned32 301000| ∧
    ∃ f, (MoveAbsFocuser sampleState 301000 none).2.2 = [f] ∧ f.k = 77 :=
  ⟨by decide, by decide,
    moveAbs_dispatches_out_of_bounds sampleState 301000 none (by decide) (by decide)⟩

/-- C10: MoveAbsFocuser converts its uint32 tick argument to the int32
setPosition target by two's-complement reinterpretation — the dispatched
M payload reads back (as int32) as t itself for t < 2^31 and as
t - 2^32 for t ≥ 2^31 — and no value of t is rejected: the frame is
always written. -/
theorem moveAbs_uint32_reinterpret (s : DFState) (t : Nat)
    (d : Option DreamFocuserCommand) (ht : t < 2 ^ 32) :
    ∃ f, (MoveAbsFocuser s t d).2.2 = [f] ∧ f.k = 77 ∧
      payloadS f = (if t < 2 ^ 31 then (t : Int) else (t : Int) - 2 ^ 32) := by
  have hw : (MoveAbsFocuser s t d).2.2 = (setPosition s (toSigned32 t) d).2.2 := by
    unfold MoveAbsFocuser
    dsimp only
    split <;> rfl
  rw [hw, setPosition_writes]
  refine ⟨_, rfl, rfl, ?_⟩
  have hrec := byteOf_recombine (toUInt32 (toSigned32 t)) (toUInt32_lt _)
  have hpay : payloadU (mkCommand 77
      (byteOf (toUInt32 (toSigned32 t)) 3) (byteOf (toUInt32 (toSigned32 t)) 2)
      (byteOf (toUInt32 (toSigned32 t)) 1) (byteOf (toUInt32 (toSigned32 t)) 0)) =
      toUInt32 (toSigned32 t) := hrec
  unfold payloadS
  rw [hpay, toUInt32_toSigned32 t ht]
  unfold toSigned32
  rfl

/-- C10 witness: t = 2^31 (not representable as a non-negative int32)
is not rejected; the payload reads back as -2^31. -/
theorem moveAbs_uint32_reinterpret_witness :
    (2147483648 : Nat) < 2 ^ 32 ∧
    ∃ f, (MoveAbsFocuser sampleState 2147483648 none).2.2 = [f] ∧ f.k = 77 ∧
      payloadS f = (if (2147483648 : Nat) < 2 ^ 31 then ((2147483648 : Nat) : Int)
        else ((2147483648 : Nat) : Int) - 2 ^ 32) :=
  ⟨by decide, moveAbs_uint32_reinterpret sampleState 2147483648 none (by decide)⟩

/-! ### Claim C9: sync then read-position under simulation -/

/-- C9 counterexample: under simulation from sampleState (whose stale
response payload is 0), sync to 1 FAILS — the simulated send_command
never echoes the payload, so the echo test compares against the stale
bytes — and the subsequent position read yields the simulated position
2000, not 1. -/
theorem sim_sync_roundtrip_cex :
    (setSync_sim sampleState 1).1 = false ∧
    (getPosition_sim (setSync_sim sampleState 1).2).2.currentPosition = 2000 ∧
    ((2000 : Int) ≠ (1 : Int)) := by
  decide

/-- C9 amended: under simulation, sync(x) succeeds exactly when the
STALE response payload (left in currentResponse by earlier traffic, the
simulated exchange only rewriting k, n and z) already equals x, and a
position read after it always yields the simulated position, which sync
never updates — so the read never reflects x unless x was already the
simulated position. -/
theorem sim_sync_stale_echo (s : DFState) (x : Nat) :
    ((setSync_sim s x).1 = true ↔ toUInt32 (payloadS s.currentResponse) = x) ∧
    (getPosition_sim (setSync_sim s x).2).2.currentPosition = s.simulatedPosition := by
  unfold setSync_sim dispatch_sim getPosition_sim
  have hsc : send_command 90 x =
      some (mkCommand 90 (byteOf x 3) (byteOf x 2) (byteOf x 1) (byteOf x 0)) := by
    simp [send_command]
  rw [hsc]
  dsimp only
  constructor
  · split_ifs with hc <;> simp_all [payloadS, payloadU]
  · split_ifs <;> rfl

end DreamFocuser
